import Mathlib

/-!
Verification development for the Frost–Schwalen nomograph evaporation-loss
solver.  The C++ sources are embedded shallowly over `ℚ`: every digitized
table entry is an exact decimal literal, arithmetic is exact field
arithmetic, and the `std::runtime_error` throws of the C++ code are
modelled by `Option`/`Except` results.
-/

unseal Rat.add Rat.mul Rat.inv Rat.sub Rat.ofScientific

/-- A digitized scale table: an ordered list of (position, value) points,
modelling `std::vector<std::pair<double, double>>`. -/
abbrev Table := List (ℚ × ℚ)

/-- The interior scan of the lookup primitive.  Models the
`std::lower_bound(table.begin(), table.end(), xq, comp)` call (with
`comp a x = a.first < x`) followed by reading `*(it-1) = (x1,y1)` and
`*it = (x2,y2)` and returning `y1 + (y2 - y1) * (xq - x1) / (x2 - x1)`:
walking a sorted table, it keeps the last point `p` whose position is
still `< xq` and stops at the first point `q` with `xq ≤ q.1`.  The `[]`
case is unreachable under the guards of `interpolate` (the last position
is `> xq` there); it returns `p.2` for totality. -/
def interpAux (p : ℚ × ℚ) : Table → ℚ → ℚ
  | [], _ => p.2
  | q :: rest, xq =>
    if xq ≤ q.1 then p.2 + (q.2 - p.2) * (xq - p.1) / (q.1 - p.1)
    else interpAux q rest xq

/-- `double interpolate(const std::vector<std::pair<double,double>>& table, double xq)`
from `src/solver.cpp` (the same code appears verbatim as `Calculator::lerp`
in `evap_solver_compact.h` and `evap_solver_validated.h`, and as the
`interpolate` lambda in `examples/evap_calculator.h`).  The empty-table
`throw std::runtime_error` is modelled as `none`. -/
def interpolate : Table → ℚ → Option ℚ
  | [], _ => none
  | p :: rest, xq =>
    let q := rest.getLastD p
    some (if xq ≤ p.1 then p.2
          else if q.1 ≤ xq then q.2
          else interpAux p rest xq)

/-- `double linearBetween(double x, double x1, double y1, double x2, double y2)`
from `src/solver.cpp`: `slope = (y2 - y1) / (x2 - x1); return y1 + slope * (x - x1)`. -/
def linearBetween (x x1 y1 x2 y2 : ℚ) : ℚ :=
  let slope := (y2 - y1) / (x2 - x1)
  y1 + slope * (x - x1)

/-- `Calculator::lerp2` of `evap_solver_compact.h` / `evap_solver_validated.h`
and the `lerp` lambda of `examples/evap_calculator.h`:
`y1 + (y2 - y1) * (x - x1) / (x2 - x1)`. -/
def lerp2 (x x1 y1 x2 y2 : ℚ) : ℚ :=
  y1 + (y2 - y1) * (x - x1) / (x2 - x1)

/-- Vapor-pressure-deficit scale `S3` (identical literal in `solver.cpp`,
`evap_solver_compact.h` and `evap_solver_validated.h`). -/
def S3 : Table :=
  [(0, 0), (0.1, 0.221), (0.2, 0.381), (0.3, 0.508), (0.4, 0.613),
   (0.5, 0.695), (0.6, 0.762), (0.7, 0.829), (0.8, 0.887), (0.9, 0.949), (1.0, 1.0)]

/-- Nozzle-diameter scale `S5`. -/
def S5 : Table :=
  [(8, 1.002), (10, 0.895), (12, 0.815), (14, 0.742), (16, 0.675), (20, 0.563),
   (24, 0.483), (32, 0.352), (40, 0.233), (48, 0.152), (64, -0.001)]

/-- Pressure scale `S7`. -/
def S7 : Table :=
  [(20, 0.0), (25, 0.159), (30, 0.296), (35, 0.407), (40, 0.499), (45, 0.589),
   (50, 0.665), (55, 0.735), (60, 0.800), (70, 0.900), (80, 0.996)]

/-- Wind-velocity scale `S9`. -/
def S9 : Table :=
  [(0, 0.0), (1, 0.140), (2, 0.246), (3, 0.356), (4, 0.435), (5, 0.508),
   (6, 0.578), (7, 0.651), (8, 0.706), (9, 0.760), (10, 0.811), (11, 0.854),
   (12, 0.895), (13, 0.930), (15, 0.994)]

/-- Result scale `S6`: (evaporation-loss %, chart ordinate). -/
def S6 : Table :=
  [(0, 0.102), (0.5, 0.252), (1, 0.360), (2, 0.460), (3, 0.521), (4, 0.563),
   (5, 0.599), (6, 0.633), (8, 0.671), (10, 0.702), (15, 0.758), (20, 0.812),
   (30, 0.883), (40, 0.917)]

/-- Lexicographic order on points, the default `operator<` of
`std::pair<double,double>` used by `std::sort(S6_flip.begin(), S6_flip.end())`. -/
def pairLeB (a b : ℚ × ℚ) : Bool :=
  decide (a.1 < b.1 ∨ (a.1 = b.1 ∧ a.2 ≤ b.2))

/-- Insert a point into a list sorted by `pairLeB`. -/
def insertPair (p : ℚ × ℚ) : Table → Table
  | [] => [p]
  | q :: rest => if pairLeB p q then p :: q :: rest else q :: insertPair p rest

/-- Sorting by the lexicographic pair order; models
`std::sort(S6_flip.begin(), S6_flip.end())` (on this data all first
components are distinct, so any comparison sort produces this result). -/
def sortPairs : Table → Table
  | [] => []
  | p :: rest => insertPair p (sortPairs rest)

/-- `for (const auto& [val, y] : S6) S6_flip.emplace_back(y, val);`:
swap the two fields of every point. -/
def flipTable (t : Table) : Table := t.map fun p => (p.2, p.1)

/-- The flipped, re-sorted result table built by `solveEvaporationLoss`
(and cached in a `static` local by the two header solvers). -/
def S6_flip : Table := sortPairs (flipTable S6)

/-- Column x-coordinates from `solver.cpp` (identical `constexpr` values in
the header solvers): `x3 = 0.0, x4 = 0.237, x5 = 0.439, x6 = 0.490,
x7 = 0.738, x8 = 0.870, x9 = 1.000`. -/
def x3 : ℚ := 0.0

/-- Pivot-A column position. -/
def x4 : ℚ := 0.237

/-- Nozzle column position. -/
def x5 : ℚ := 0.439

/-- Result column position. -/
def x6 : ℚ := 0.490

/-- Pressure column position. -/
def x7 : ℚ := 0.738

/-- Pivot-B column position. -/
def x8 : ℚ := 0.870

/-- Wind column position. -/
def x9 : ℚ := 1.000

/-- `struct Inputs` from `src/solver.h`. -/
structure Inputs where
  vpd : ℚ
  nozzle : ℤ
  pressure : ℚ
  wind : ℚ
deriving DecidableEq, Repr

/-- `double solveEvaporationLoss(const Inputs& in)` from `src/solver.cpp`. -/
def solveEvaporationLoss (i : Inputs) : Option ℚ :=
  (interpolate S3 i.vpd).bind fun y3 =>
  (interpolate S5 (i.nozzle : ℚ)).bind fun y5 =>
  (interpolate S7 i.pressure).bind fun y7 =>
  (interpolate S9 i.wind).bind fun y9 =>
    let yA := linearBetween x4 x3 y3 x5 y5
    let yB := linearBetween x8 x7 y7 x9 y9
    let yL := linearBetween x6 x4 yA x8 yB
    interpolate S6_flip yL

namespace EvapSolver

/-- `struct Input` from `evap_solver_compact.h`. -/
structure Input where
  vpd : ℚ
  nozzle : ℤ
  pressure : ℚ
  wind : ℚ
deriving DecidableEq, Repr

/-- `Calculator::lerp` from `evap_solver_compact.h`; the code is verbatim
the `interpolate` of `solver.cpp` (modulo the message of the empty-table
throw, which both model as `none`). -/
def lerp : Table → ℚ → Option ℚ
  | [], _ => none
  | p :: rest, x =>
    let q := rest.getLastD p
    some (if x ≤ p.1 then p.2
          else if q.1 ≤ x then q.2
          else interpAux p rest x)

/-- `Calculator::calculate` from `evap_solver_compact.h`.  The tables and
column coordinates are the same literals as in `solver.cpp` (see the
top-level definitions); the cached `static S6_flip` is the same
flip-then-`std::sort` of `S6`. -/
def Calculator.calculate (i : Input) : Option ℚ :=
  (lerp S3 i.vpd).bind fun y3 =>
  (lerp S5 (i.nozzle : ℚ)).bind fun y5 =>
  (lerp S7 i.pressure).bind fun y7 =>
  (lerp S9 i.wind).bind fun y9 =>
    let yA := lerp2 x4 x3 y3 x5 y5
    let yB := lerp2 x8 x7 y7 x9 y9
    let yL := lerp2 x6 x4 yA x8 yB
    lerp S6_flip yL

/-- `inline double calculateEvaporationLoss(...)` from `evap_solver_compact.h`. -/
def calculateEvaporationLoss (vpd : ℚ) (nozzle : ℤ) (pressure wind : ℚ) : Option ℚ :=
  Calculator.calculate ⟨vpd, nozzle, pressure, wind⟩

end EvapSolver

namespace EvapSolverValidated

/-- `struct Input` from `evap_solver_validated.h`. -/
structure Input where
  vpd : ℚ
  nozzle : ℤ
  pressure : ℚ
  wind : ℚ
deriving DecidableEq, Repr

/-- The four input fields, used to report which field a validation
failure is about. -/
inductive ParamField where
  | vpd
  | nozzle
  | pressure
  | wind
deriving DecidableEq, Repr

/-- The payload of one `throw std::runtime_error` in `Input::validate`:
the offending field, the offending value, and the allowed `[lo, hi]`
range (all three appear in the thrown message). -/
structure ValidationError where
  field : ParamField
  value : ℚ
  lo : ℚ
  hi : ℚ
deriving DecidableEq, Repr

/-- Every `std::exception` the validated solver can throw: a validation
failure from `Input::validate`, or the empty-interpolation-table
`runtime_error` of `Calculator::lerp` (the ConfigurationError of the spec). -/
inductive EvalError where
  | validation (e : ValidationError)
  | emptyTable
deriving DecidableEq, Repr

/-- The `e.what()` message carried by each throw, as built in
`evap_solver_validated.h`. -/
def EvalError.message : EvalError → String
  | .validation e =>
    (match e.field with
     | .vpd => "Vapor-Pressure Deficit must be between 0.0 and 1.0 psi"
     | .nozzle => "Nozzle diameter must be between 8 and 64 (64ths of an inch)"
     | .pressure => "Nozzle pressure must be between 20 and 80 psi"
     | .wind => "Wind velocity must be between 0 and 15 mph")
      ++ " (got " ++ toString e.value ++ ")"
  | .emptyTable => "Empty interpolation table"

/-- `void Input::validate() const` from `evap_solver_validated.h`:
four range checks in order, throwing on the first violated one. -/
def Input.validate (i : Input) : Except EvalError Unit :=
  if i.vpd < 0 ∨ i.vpd > 1 then
    .error (.validation ⟨.vpd, i.vpd, 0, 1⟩)
  else if i.nozzle < 8 ∨ i.nozzle > 64 then
    .error (.validation ⟨.nozzle, (i.nozzle : ℚ), 8, 64⟩)
  else if i.pressure < 20 ∨ i.pressure > 80 then
    .error (.validation ⟨.pressure, i.pressure, 20, 80⟩)
  else if i.wind < 0 ∨ i.wind > 15 then
    .error (.validation ⟨.wind, i.wind, 0, 15⟩)
  else
    .ok ()

/-- `struct ValidationResult` from `evap_solver_validated.h`. -/
structure ValidationResult where
  isValid : Bool
  errorMessage : String
  calculatedValue : ℚ
  isOutOfRange : Bool
deriving DecidableEq, Repr

/-- `Calculator::calculateUnchecked` from `evap_solver_validated.h`:
verbatim the same pipeline as `Calculator::calculate` of
`evap_solver_compact.h` (same table literals, same `lerp`/`lerp2`,
same cached flipped table). -/
def Calculator.calculateUnchecked (i : Input) : Option ℚ :=
  (EvapSolver.lerp S3 i.vpd).bind fun y3 =>
  (EvapSolver.lerp S5 (i.nozzle : ℚ)).bind fun y5 =>
  (EvapSolver.lerp S7 i.pressure).bind fun y7 =>
  (EvapSolver.lerp S9 i.wind).bind fun y9 =>
    let yA := lerp2 x4 x3 y3 x5 y5
    let yB := lerp2 x8 x7 y7 x9 y9
    let yL := lerp2 x6 x4 yA x8 yB
    EvapSolver.lerp S6_flip yL

/-- `Calculator::calculate` from `evap_solver_validated.h`:
`in.validate(); return calculateUnchecked(in);`, both throws propagating. -/
def Calculator.calculate (i : Input) : Except EvalError ℚ :=
  match i.validate with
  | .error e => .error e
  | .ok _ =>
    match Calculator.calculateUnchecked i with
    | none => .error .emptyTable
    | some r => .ok r

/-- `Calculator::calculateWithValidation` from `evap_solver_validated.h`:
runs validation and the pipeline inside a `try`, catching any exception
into a `ValidationResult(false, e.what(), 0.0, false)`; on success flags
`outOfRange = (result < 0.0 || result > 40.0)`. -/
def Calculator.calculateWithValidation (i : Input) : ValidationResult :=
  match i.validate with
  | .error e => ⟨false, e.message, 0, false⟩
  | .ok _ =>
    match Calculator.calculateUnchecked i with
    | none => ⟨false, EvalError.emptyTable.message, 0, false⟩
    | some r => ⟨true, "", r, decide (r < 0 ∨ r > 40)⟩

/-- `inline ValidationResult calculateEvaporationLossWithValidation(...)`:
the validating `Input` constructor may throw (caught into a failed
result); otherwise `Calculator::calculateWithValidation` runs. -/
def calculateEvaporationLossWithValidation (vpd : ℚ) (nozzle : ℤ)
    (pressure wind : ℚ) : ValidationResult :=
  match (Input.mk vpd nozzle pressure wind).validate with
  | .error e => ⟨false, e.message, 0, false⟩
  | .ok _ => Calculator.calculateWithValidation ⟨vpd, nozzle, pressure, wind⟩

/-- `inline double calculateEvaporationLoss(...)` from
`evap_solver_validated.h`: the validating `Input` constructor followed by
`Calculator::calculate` (which validates again); exceptions propagate. -/
def calculateEvaporationLoss (vpd : ℚ) (nozzle : ℤ)
    (pressure wind : ℚ) : Except EvalError ℚ :=
  match (Input.mk vpd nozzle pressure wind).validate with
  | .error e => .error e
  | .ok _ => Calculator.calculate ⟨vpd, nozzle, pressure, wind⟩

/-- `inline double calculateEvaporationLossSafe(..., double defaultValue)`:
`try { return calculateEvaporationLoss(...); } catch (...) { return defaultValue; }`. -/
def calculateEvaporationLossSafe (vpd : ℚ) (nozzle : ℤ)
    (pressure wind dflt : ℚ) : ℚ :=
  match calculateEvaporationLoss vpd nozzle pressure wind with
  | .ok v => v
  | .error _ => dflt

end EvapSolverValidated

namespace EvapCalc

/-- The `interpolate` lambda of `examples/evap_calculator.h`.  It is the
same lookup as `solver.cpp`'s `interpolate` except that it reads
`table[0]` without an emptiness check; indexing an empty vector is
undefined behaviour, modelled as `none`. -/
def interpolate : Table → ℚ → Option ℚ
  | [], _ => none
  | p :: rest, x =>
    let q := rest.getLastD p
    some (if x ≤ p.1 then p.2
          else if q.1 ≤ x then q.2
          else interpAux p rest x)

/-- The pre-flipped literal result table `S6_flip` of
`examples/evap_calculator.h`. -/
def S6_flip : Table :=
  [(0.102, 0), (0.252, 0.5), (0.360, 1), (0.460, 2), (0.521, 3), (0.563, 4),
   (0.599, 5), (0.633, 6), (0.671, 8), (0.702, 10), (0.758, 15), (0.812, 20),
   (0.883, 30), (0.917, 40)]

/-- `inline double calculateEvaporationLoss(...)` from
`examples/evap_calculator.h` (its `lerp` lambda is the top-level `lerp2`;
its tables are the same literals, with `S6_flip` pre-flipped). -/
def calculateEvaporationLoss (vpd : ℚ) (nozzle : ℤ)
    (pressure wind : ℚ) : Option ℚ :=
  (interpolate S3 vpd).bind fun y3 =>
  (interpolate S5 (nozzle : ℚ)).bind fun y5 =>
  (interpolate S7 pressure).bind fun y7 =>
  (interpolate S9 wind).bind fun y9 =>
    let yA := lerp2 x4 x3 y3 x5 y5
    let yB := lerp2 x8 x7 y7 x9 y9
    let yL := lerp2 x6 x4 yA x8 yB
    interpolate S6_flip yL

end EvapCalc

/-- The evaluation pipeline exactly as the spec words it (§4.2 together
with the seven geometry constants of §3): four independent forward
lookups; pivot A at `x = 0.237` on the two-point line through
`(0.0, y_vpd)` and `(0.439, y_nozzle)`; pivot B at `x = 0.870` on the
line through `(0.738, y_pressure)` and `(1.000, y_wind)`; the result
ordinate at `x = 0.490` on the line through `(0.237, pivotA)` and
`(0.870, pivotB)`, each using the two-point formula
`y1 + (y2 - y1) * (x - x1) / (x2 - x1)`; finally a reverse lookup of the
result ordinate on the flipped, re-sorted result table.  This is the
spec-side reference definition for the refinement claim about
`solveEvaporationLoss`. -/
def specEvaluate (i : Inputs) : Option ℚ :=
  (interpolate S3 i.vpd).bind fun yvpd =>
  (interpolate S5 (i.nozzle : ℚ)).bind fun ynozzle =>
  (interpolate S7 i.pressure).bind fun ypressure =>
  (interpolate S9 i.wind).bind fun ywind =>
    let pivotA := yvpd + (ynozzle - yvpd) * (0.237 - 0.0) / (0.439 - 0.0)
    let pivotB := ypressure + (ywind - ypressure) * (0.870 - 0.738) / (1.000 - 0.738)
    let yResult := pivotA + (pivotB - pivotA) * (0.490 - 0.237) / (0.870 - 0.237)
    interpolate (sortPairs (flipTable S6)) yResult

/-! ## Basic facts relating the embedded implementations -/

/-- Positions strictly increasing: the Scale Table invariant of the spec. -/
abbrev StrictIncr (t : Table) : Prop :=
  List.Pairwise (fun a b : ℚ × ℚ => a.1 < b.1) t

/-- In-domain inputs, exactly the ranges checked by `Input::validate`. -/
abbrev InDomain (vpd : ℚ) (nozzle : ℤ) (pressure wind : ℚ) : Prop :=
  0 ≤ vpd ∧ vpd ≤ 1 ∧ 8 ≤ nozzle ∧ nozzle ≤ 64 ∧
    20 ≤ pressure ∧ pressure ≤ 80 ∧ 0 ≤ wind ∧ wind ≤ 15

lemma lerp_eq_interpolate (t : Table) (x : ℚ) :
    EvapSolver.lerp t x = interpolate t x := by
  cases t <;> rfl

lemma evapCalc_interpolate_eq (t : Table) (x : ℚ) :
    EvapCalc.interpolate t x = interpolate t x := by
  cases t <;> rfl

lemma linearBetween_eq_lerp2 (x x1 y1 x2 y2 : ℚ) :
    linearBetween x x1 y1 x2 y2 = lerp2 x x1 y1 x2 y2 := by
  simp only [linearBetween, lerp2]
  rw [div_mul_eq_mul_div]

lemma evapCalc_S6_flip_eq : EvapCalc.S6_flip = S6_flip := by decide

lemma interpolate_isSome (t : Table) (x : ℚ) (h : t ≠ []) :
    ∃ v, interpolate t x = some v := by
  cases t with
  | nil => exact absurd rfl h
  | cons p rest => exact ⟨_, rfl⟩

lemma getLastD_eq_getLast (p : ℚ × ℚ) (rest : Table) :
    rest.getLastD p = (p :: rest).getLast (List.cons_ne_nil p rest) := by
  induction rest generalizing p with
  | nil => rfl
  | cons q r ih =>
    rw [List.getLastD_cons, List.getLast_cons (List.cons_ne_nil q r)]
    exact ih q

lemma getLastD_mem (p : ℚ × ℚ) (rest : Table) :
    rest.getLastD p ∈ p :: rest := by
  rw [getLastD_eq_getLast]
  exact List.getLast_mem _

lemma pos_mono (t : Table) (hs : StrictIncr t) (i j : ℕ)
    (hi : i < t.length) (hj : j < t.length) (hij : i ≤ j) :
    (t[i]).1 ≤ (t[j]).1 := by
  rcases lt_or_eq_of_le hij with h | h
  · exact le_of_lt (List.pairwise_iff_getElem.mp hs i j hi hj h)
  · subst h; exact le_refl _

lemma interpAux_eq_of_bracket :
    ∀ (i : ℕ) (p : ℚ × ℚ) (rest : Table) (x : ℚ),
      StrictIncr (p :: rest) →
      ∀ (hi : i + 1 < (p :: rest).length),
      ((p :: rest)[i]).1 < x → x ≤ ((p :: rest)[i + 1]).1 →
      interpAux p rest x =
        ((p :: rest)[i]).2 +
          (((p :: rest)[i + 1]).2 - ((p :: rest)[i]).2) *
            (x - ((p :: rest)[i]).1) / (((p :: rest)[i + 1]).1 - ((p :: rest)[i]).1) := by
  intro i
  induction i with
  | zero =>
    intro p rest x hs hi h1 h2
    match rest with
    | q :: rest' =>
      simp only [List.getElem_cons_zero, List.getElem_cons_succ] at h1 h2 ⊢
      rw [interpAux, if_pos h2]
  | succ k ih =>
    intro p rest x hs hi h1 h2
    match rest with
    | q :: rest' =>
      have hlen : k + 1 < (q :: rest').length := by
        simpa [List.length_cons] using hi
      have hq : q.1 < x := by
        have h0 : ((q :: rest')[0]).1 ≤ ((q :: rest')[k]).1 :=
          pos_mono (q :: rest') ((List.pairwise_cons.mp hs).2) 0 k
            (by omega) (by omega) (by omega)
        have : ((p :: q :: rest')[k + 1]).1 < x := h1
        rw [List.getElem_cons_succ] at this
        calc q.1 = ((q :: rest')[0]).1 := by rw [List.getElem_cons_zero]
          _ ≤ ((q :: rest')[k]).1 := h0
          _ < x := this
      rw [interpAux, if_neg (not_le.mpr hq)]
      have := ih q rest' x ((List.pairwise_cons.mp hs).2) hlen
        (by simpa using h1) (by simpa using h2)
      simpa using this

lemma interpolate_eq_of_bracket (t : Table) (x : ℚ) (i : ℕ)
    (hs : StrictIncr t) (hi : i + 1 < t.length)
    (h1 : (t[i]).1 < x) (h2 : x ≤ (t[i + 1]).1) :
    interpolate t x =
      some ((t[i]).2 + ((t[i + 1]).2 - (t[i]).2) * (x - (t[i]).1) /
        ((t[i + 1]).1 - (t[i]).1)) := by
  match t with
  | p :: rest =>
    have hp : p.1 < x := by
      have h0 : ((p :: rest)[0]).1 ≤ ((p :: rest)[i]).1 :=
        pos_mono (p :: rest) hs 0 i (by omega) (by omega) (by omega)
      simp only [List.getElem_cons_zero] at h0
      exact lt_of_le_of_lt h0 h1
    rw [interpolate, if_neg (not_le.mpr hp)]
    have hlen : (p :: rest).length - 1 < (p :: rest).length := by
      simp [List.length_cons]
    have hgl : rest.getLastD p = (p :: rest)[(p :: rest).length - 1] := by
      rw [getLastD_eq_getLast p rest, List.getLast_eq_getElem]
    by_cases hq : (rest.getLastD p).1 ≤ x
    · -- the right-clamp guard fired: x equals the last position, which must be
      -- position i+1, so the clamp value and the bracket formula coincide
      rw [hgl] at hq
      have hle : ((p :: rest)[i + 1]).1 ≤ ((p :: rest)[(p :: rest).length - 1]).1 :=
        pos_mono (p :: rest) hs (i + 1) ((p :: rest).length - 1) hi hlen (by omega)
      have hx2 : x = ((p :: rest)[i + 1]).1 :=
        le_antisymm h2 (le_trans hle hq)
      have hi1 : i + 1 = (p :: rest).length - 1 := by
        by_contra hne
        have hlt2 : i + 1 < (p :: rest).length - 1 := by omega
        have hstep := List.pairwise_iff_getElem.mp hs (i + 1)
          ((p :: rest).length - 1) hi hlen hlt2
        linarith
      have hel : (p :: rest)[(p :: rest).length - 1] = (p :: rest)[i + 1] :=
        getElem_congr hi1.symm
      rw [if_pos (hgl ▸ hq), hgl, hel]
      have hlt : ((p :: rest)[i]).1 < ((p :: rest)[i + 1]).1 := hx2 ▸ h1
      congr 1
      rw [hx2, mul_div_assoc, div_self (sub_ne_zero.mpr (ne_of_gt hlt)), mul_one]
      ring
    · rw [if_neg hq]
      exact congrArg some (interpAux_eq_of_bracket i p rest x hs hi h1 h2)

lemma convex_between (x x1 y1 y2 x2 : ℚ) (hl : x1 < x) (hr : x ≤ x2) :
    min y1 y2 ≤ y1 + (y2 - y1) * (x - x1) / (x2 - x1) ∧
      y1 + (y2 - y1) * (x - x1) / (x2 - x1) ≤ max y1 y2 := by
  have hd : 0 < x2 - x1 := by linarith
  rw [mul_div_assoc]
  have ht1 : 0 < (x - x1) / (x2 - x1) := div_pos (by linarith) hd
  have ht2 : (x - x1) / (x2 - x1) ≤ 1 := (div_le_one hd).mpr (by linarith)
  set t := (x - x1) / (x2 - x1) with hts
  rcases le_total y1 y2 with h | h
  · rw [min_eq_left h, max_eq_right h]
    constructor <;> nlinarith
  · rw [min_eq_right h, max_eq_left h]
    constructor <;> nlinarith

lemma interpAux_bound :
    ∀ (rest : Table) (p : ℚ × ℚ) (x : ℚ),
      StrictIncr (p :: rest) → p.1 < x →
      ∃ a ∈ p :: rest, ∃ b ∈ p :: rest,
        a.2 ≤ interpAux p rest x ∧ interpAux p rest x ≤ b.2 := by
  intro rest
  induction rest with
  | nil =>
    intro p x _ _
    exact ⟨p, List.mem_singleton_self p, p, List.mem_singleton_self p,
      le_refl _, le_refl _⟩
  | cons q rest' ih =>
    intro p x hs hx
    rw [interpAux]
    by_cases hguard : x ≤ q.1
    · rw [if_pos hguard]
      have hcb := convex_between x p.1 p.2 q.2 q.1 hx hguard
      rcases le_total p.2 q.2 with h | h
      · rw [min_eq_left h, max_eq_right h] at hcb
        exact ⟨p, List.mem_cons_self p _, q, List.mem_cons_of_mem p (List.mem_cons_self q _),
          hcb.1, hcb.2⟩
      · rw [min_eq_right h, max_eq_left h] at hcb
        exact ⟨q, List.mem_cons_of_mem p (List.mem_cons_self q _), p, List.mem_cons_self p _,
          hcb.1, hcb.2⟩
    · rw [if_neg hguard]
      have hq : q.1 < x := not_le.mp hguard
      obtain ⟨a, ha, b, hb, h1, h2⟩ :=
        ih q x ((List.pairwise_cons.mp hs).2) hq
      exact ⟨a, List.mem_cons_of_mem p ha, b, List.mem_cons_of_mem p hb, h1, h2⟩

lemma interpolate_bound (t : Table) (x v : ℚ)
    (hs : StrictIncr t) (hv : interpolate t x = some v) :
    ∃ a ∈ t, ∃ b ∈ t, a.2 ≤ v ∧ v ≤ b.2 := by
  match t with
  | [] => exact absurd hv (by simp [interpolate])
  | p :: rest =>
    rw [interpolate] at hv
    have hv' := Option.some_injective _ hv
    by_cases h1 : x ≤ p.1
    · rw [if_pos h1] at hv'
      exact ⟨p, List.mem_cons_self p _, p, List.mem_cons_self p _, hv' ▸ le_refl _,
        hv' ▸ le_refl _⟩
    · rw [if_neg h1] at hv'
      by_cases h2 : (rest.getLastD p).1 ≤ x
      · rw [if_pos h2] at hv'
        exact ⟨rest.getLastD p, getLastD_mem p rest, rest.getLastD p, getLastD_mem p rest,
          hv' ▸ le_refl _, hv' ▸ le_refl _⟩
      · rw [if_neg h2] at hv'
        obtain ⟨a, ha, b, hb, hab1, hab2⟩ := interpAux_bound rest p x hs (not_le.mp h1)
        exact ⟨a, ha, b, hb, hv' ▸ hab1, hv' ▸ hab2⟩

lemma S6_flip_sorted : StrictIncr S6_flip := by decide

lemma S6_flip_values : ∀ p ∈ S6_flip, 0 ≤ p.2 ∧ p.2 ≤ 40 := by decide

lemma solveEvaporationLoss_total (i : Inputs) :
    ∃ v, solveEvaporationLoss i = some v := by
  obtain ⟨v3, h3⟩ := interpolate_isSome S3 i.vpd (by decide)
  obtain ⟨v5, h5⟩ := interpolate_isSome S5 (i.nozzle : ℚ) (by decide)
  obtain ⟨v7, h7⟩ := interpolate_isSome S7 i.pressure (by decide)
  obtain ⟨v9, h9⟩ := interpolate_isSome S9 i.wind (by decide)
  rw [solveEvaporationLoss, h3, h5, h7, h9]
  simp only [Option.some_bind]
  exact interpolate_isSome S6_flip _ (by decide)

lemma solveEvaporationLoss_range (i : Inputs) (v : ℚ)
    (hv : solveEvaporationLoss i = some v) : 0 ≤ v ∧ v ≤ 40 := by
  rw [solveEvaporationLoss] at hv
  simp only [Option.bind_eq_some] at hv
  obtain ⟨y3, h3, y5, h5, y7, h7, y9, h9, hfin⟩ := hv
  obtain ⟨a, ha, b, hb, h1, h2⟩ := interpolate_bound S6_flip _ v S6_flip_sorted hfin
  exact ⟨le_trans (S6_flip_values a ha).1 h1, le_trans h2 (S6_flip_values b hb).2⟩

namespace EvapSolverValidated

lemma validate_ok_iff (i : Input) :
    i.validate = .ok () ↔ InDomain i.vpd i.nozzle i.pressure i.wind := by
  unfold Input.validate
  split_ifs with h1 h2 h3 h4 <;> simp <;> push_neg at *
  · intro hv hv2 hn hn2 hp hp2 hw
    exfalso
    rcases h1 with h | h <;> linarith
  · intro hv hv2 hn hn2 hp hp2 hw
    exfalso
    rcases h2 with h | h <;> omega
  · intro hv hv2 hn hn2 hp hp2 hw
    exfalso
    rcases h3 with h | h <;> linarith
  · intro hv hv2 hn hn2 hp hp2 hw
    rcases h4 with h | h
    · linarith
    · exact h
  · exact ⟨h1.1, h1.2, by omega, by omega, h3.1, h3.2, h4.1, h4.2⟩

lemma validate_error_cases (i : Input) (e : ValidationError)
    (h : i.validate = .error (.validation e)) :
    (e.field = .vpd ∧ e.value = i.vpd ∧ e.lo = 0 ∧ e.hi = 1 ∧
      (i.vpd < 0 ∨ i.vpd > 1)) ∨
    (e.field = .nozzle ∧ e.value = (i.nozzle : ℚ) ∧ e.lo = 8 ∧ e.hi = 64 ∧
      (i.nozzle < 8 ∨ i.nozzle > 64)) ∨
    (e.field = .pressure ∧ e.value = i.pressure ∧ e.lo = 20 ∧ e.hi = 80 ∧
      (i.pressure < 20 ∨ i.pressure > 80)) ∨
    (e.field = .wind ∧ e.value = i.wind ∧ e.lo = 0 ∧ e.hi = 15 ∧
      (i.wind < 0 ∨ i.wind > 15)) := by
  unfold Input.validate at h
  split_ifs at h with h1 h2 h3 h4 <;>
    simp only [Except.error.injEq, EvalError.validation.injEq] at h
  · subst h
    exact Or.inl ⟨rfl, rfl, rfl, rfl, h1⟩
  · subst h
    exact Or.inr (Or.inl ⟨rfl, rfl, rfl, rfl, h2⟩)
  · subst h
    exact Or.inr (Or.inr (Or.inl ⟨rfl, rfl, rfl, rfl, h3⟩))
  · subst h
    exact Or.inr (Or.inr (Or.inr ⟨rfl, rfl, rfl, rfl, h4⟩))

lemma validate_result (i : Input) :
    i.validate = .ok () ∨ ∃ e, i.validate = .error (.validation e) := by
  unfold Input.validate
  split_ifs <;> simp

lemma message_ne_empty (e : EvalError) : e.message ≠ "" := by
  intro h
  cases e with
  | validation ve =>
    have h2 := congrArg String.length h
    simp only [EvalError.message, String.length_append] at h2
    rw [show String.length ")" = 1 from rfl, show String.length "" = 0 from rfl] at h2
    omega
  | emptyTable =>
    have h2 := congrArg String.length h
    simp only [EvalError.message] at h2
    rw [show String.length "Empty interpolation table" = 25 from rfl,
      show String.length "" = 0 from rfl] at h2
    omega

lemma calculateUnchecked_eq_solve (vpd : ℚ) (nozzle : ℤ) (pressure wind : ℚ) :
    Calculator.calculateUnchecked ⟨vpd, nozzle, pressure, wind⟩ =
      solveEvaporationLoss ⟨vpd, nozzle, pressure, wind⟩ := by
  simp only [Calculator.calculateUnchecked, solveEvaporationLoss,
    lerp_eq_interpolate, linearBetween_eq_lerp2]

lemma calculateUnchecked_total (i : Input) :
    ∃ v, Calculator.calculateUnchecked i = some v := by
  obtain ⟨v, hv⟩ := solveEvaporationLoss_total ⟨i.vpd, i.nozzle, i.pressure, i.wind⟩
  exact ⟨v, by rw [show i = ⟨i.vpd, i.nozzle, i.pressure, i.wind⟩ from rfl,
    calculateUnchecked_eq_solve]; exact hv⟩

end EvapSolverValidated

lemma compact_eq_solve (vpd : ℚ) (nozzle : ℤ) (pressure wind : ℚ) :
    EvapSolver.Calculator.calculate ⟨vpd, nozzle, pressure, wind⟩ =
      solveEvaporationLoss ⟨vpd, nozzle, pressure, wind⟩ := by
  simp only [EvapSolver.Calculator.calculate, solveEvaporationLoss,
    lerp_eq_interpolate, linearBetween_eq_lerp2]

lemma evapCalc_eq_solve (vpd : ℚ) (nozzle : ℤ) (pressure wind : ℚ) :
    EvapCalc.calculateEvaporationLoss vpd nozzle pressure wind =
      solveEvaporationLoss ⟨vpd, nozzle, pressure, wind⟩ := by
  simp only [EvapCalc.calculateEvaporationLoss, solveEvaporationLoss,
    evapCalc_interpolate_eq, linearBetween_eq_lerp2, evapCalc_S6_flip_eq]

lemma bind_congr2 {α β : Type} (o : Option α) (f g : α → Option β)
    (h : ∀ a, f a = g a) : o.bind f = o.bind g := by
  cases o with
  | none => rfl
  | some a => exact h a

lemma solve_eq_spec (i : Inputs) : solveEvaporationLoss i = specEvaluate i := by
  rw [solveEvaporationLoss, specEvaluate]
  apply bind_congr2
  intro y3
  apply bind_congr2
  intro y5
  apply bind_congr2
  intro y7
  apply bind_congr2
  intro y9
  rw [show sortPairs (flipTable S6) = S6_flip from rfl]
  simp only [linearBetween]
  congr 1
  simp only [x3, x4, x5, x6, x7, x8, x9]
  ring

lemma strict_call_cases (vpd : ℚ) (nozzle : ℤ) (pressure wind : ℚ) :
    (InDomain vpd nozzle pressure wind ∧ ∃ r,
        EvapSolverValidated.calculateEvaporationLoss vpd nozzle pressure wind = .ok r ∧
        EvapSolverValidated.Calculator.calculateUnchecked
          ⟨vpd, nozzle, pressure, wind⟩ = some r) ∨
    (¬ InDomain vpd nozzle pressure wind ∧ ∃ ve,
        (EvapSolverValidated.Input.mk vpd nozzle pressure wind).validate =
          .error (.validation ve) ∧
        EvapSolverValidated.calculateEvaporationLoss vpd nozzle pressure wind =
          .error (.validation ve)) := by
  rcases EvapSolverValidated.validate_result ⟨vpd, nozzle, pressure, wind⟩ with hok | ⟨ve, he⟩
  · left
    obtain ⟨r, hr⟩ :=
      EvapSolverValidated.calculateUnchecked_total ⟨vpd, nozzle, pressure, wind⟩
    refine ⟨(EvapSolverValidated.validate_ok_iff _).mp hok, r, ?_, hr⟩
    simp only [EvapSolverValidated.calculateEvaporationLoss,
      EvapSolverValidated.Calculator.calculate, hok, hr]
  · right
    have hnin : ¬ InDomain vpd nozzle pressure wind := by
      intro hin
      rw [(EvapSolverValidated.validate_ok_iff _).mpr hin] at he
      exact absurd he (by simp)
    refine ⟨hnin, ve, he, ?_⟩
    simp only [EvapSolverValidated.calculateEvaporationLoss, he]

/-! ## Claim theorems -/

/-- C1: `solveEvaporationLoss` computes its result by exactly the fixed
pipeline of the spec: four independent forward table lookups (vpd on S3,
nozzle on S5, pressure on S7, wind on S9), pivot A as the two-point line
through (0.0, y_vpd) and (0.439, y_nozzle) at x = 0.237, pivot B as the
line through (0.738, y_pressure) and (1.000, y_wind) at x = 0.870, the
result ordinate as the line through (0.237, pivotA) and (0.870, pivotB)
at x = 0.490, and a reverse lookup of that ordinate on the flipped,
re-sorted result table — with no other input-dependent branching: for
every input the function equals `specEvaluate`, the verbatim composition
of `interpolate` and the two-point formula with those seven constants. -/
theorem solveEvaporationLoss_eq_specEvaluate :
    ∀ i : Inputs, solveEvaporationLoss i = specEvaluate i :=
  solve_eq_spec

/-- C2: the lookup primitive equals the reference definition.  For every
table with at least one point and strictly increasing positions:
left-clamp at or below the first position, right-clamp at or above the
last position, on a bracketing pair `x1 < x ≤ x2` the linear
interpolation `y1 + (y2 - y1) * (x - x1) / (x2 - x1)`, and the
bracketing pair is unique. -/
theorem interpolate_matches_reference (t : Table) (h : t ≠ []) (hs : StrictIncr t) :
    (∀ x, x ≤ (t.head h).1 → interpolate t x = some (t.head h).2) ∧
    (∀ x, (t.getLast h).1 ≤ x → interpolate t x = some (t.getLast h).2) ∧
    (∀ (x : ℚ) (i : ℕ) (hi : i + 1 < t.length),
      (t[i]).1 < x → x ≤ (t[i + 1]).1 →
      interpolate t x =
        some ((t[i]).2 + ((t[i + 1]).2 - (t[i]).2) * (x - (t[i]).1) /
          ((t[i + 1]).1 - (t[i]).1))) ∧
    (∀ (x : ℚ) (i j : ℕ) (hi : i + 1 < t.length) (hj : j + 1 < t.length),
      (t[i]).1 < x → x ≤ (t[i + 1]).1 → (t[j]).1 < x → x ≤ (t[j + 1]).1 → i = j) := by
  refine ⟨?_, ?_, ?_, ?_⟩
  · intro x hx
    match t with
    | p :: rest =>
      simp only [List.head_cons] at hx ⊢
      rw [interpolate, if_pos hx]
  · intro x hx
    match t with
    | p :: [] =>
      simp only [List.getLast_singleton] at hx ⊢
      rcases le_or_lt x p.1 with h1 | h1
      · rw [interpolate, if_pos h1]
      · rw [interpolate, if_neg (not_le.mpr h1)]
        simp only [List.getLastD_nil]
        rw [if_pos hx]
    | p :: q :: rest =>
      have hgl : (q :: rest).getLastD p = (p :: q :: rest).getLast (by simp) :=
        getLastD_eq_getLast p (q :: rest)
      have hlen : (p :: q :: rest).length - 1 < (p :: q :: rest).length := by
        simp [List.length_cons]
      have hp0 : p.1 < ((p :: q :: rest).getLast (by simp)).1 := by
        rw [List.getLast_eq_getElem]
        have := List.pairwise_iff_getElem.mp hs 0 ((p :: q :: rest).length - 1)
          (by simp) hlen (by simp [List.length_cons])
        simpa using this
      have hx' : ¬ x ≤ p.1 := by
        rw [List.getLast_eq_getElem] at hx hp0
        push_neg
        calc p.1 < _ := hp0
          _ ≤ x := hx
      rw [interpolate, if_neg hx', hgl, if_pos hx]
  · intro x i hi h1 h2
    exact interpolate_eq_of_bracket t x i hs hi h1 h2
  · intro x i j hi hj h1i h2i h1j h2j
    by_contra hne
    rcases lt_or_gt_of_ne hne with hlt | hlt
    · have hle : (t[i + 1]).1 ≤ (t[j]).1 :=
        pos_mono t hs (i + 1) j hi (by omega) (by omega)
      linarith
    · have hle : (t[j + 1]).1 ≤ (t[i]).1 :=
        pos_mono t hs (j + 1) i hj (by omega) (by omega)
      linarith

/-- Witness for C2 at the concrete table `S3`, interior bracket (0, 0)–(0.1, 0.221):
`lookup(S3, 0.05) = 0 + (0.221 - 0) * (0.05 - 0) / (0.1 - 0) = 0.1105`. -/
theorem interpolate_matches_reference_witness :
    interpolate S3 (1/20) = some (221/2000) := by
  rw [(interpolate_matches_reference S3 (by decide) (by decide)).2.2.1
    (1/20) 0 (by decide) (by decide) (by decide)]
  decide

/-- C3: the strict, default-substituting, and diagnostic call shapes are
adapters over one and the same evaluator: for every input the compact
`Calculator::calculate`, the validated `Calculator::calculateUnchecked`,
and the header-only `calculateEvaporationLoss` of `evap_calculator.h`
all return exactly `solveEvaporationLoss` of `solver.cpp`; and the
pre-flipped literal table `S6_flip` of `evap_calculator.h` equals the
swap-each-point-then-re-sort transform of `S6` used by the other three. -/
theorem wrappers_agree :
    ∀ (vpd : ℚ) (nozzle : ℤ) (pressure wind : ℚ),
      EvapSolver.Calculator.calculate ⟨vpd, nozzle, pressure, wind⟩ =
        solveEvaporationLoss ⟨vpd, nozzle, pressure, wind⟩ ∧
      EvapSolverValidated.Calculator.calculateUnchecked ⟨vpd, nozzle, pressure, wind⟩ =
        solveEvaporationLoss ⟨vpd, nozzle, pressure, wind⟩ ∧
      EvapCalc.calculateEvaporationLoss vpd nozzle pressure wind =
        solveEvaporationLoss ⟨vpd, nozzle, pressure, wind⟩ ∧
      EvapCalc.S6_flip = sortPairs (flipTable S6) := by
  intro vpd nozzle pressure wind
  exact ⟨compact_eq_solve vpd nozzle pressure wind,
    EvapSolverValidated.calculateUnchecked_eq_solve vpd nozzle pressure wind,
    evapCalc_eq_solve vpd nozzle pressure wind,
    by decide⟩

/-- C4: the reference scenario of the digitized nomograph:
`evaluate(0.6, 12, 40, 5)` is approximately 8.314 percent, within ±0.01
(the exact rational value of the pipeline is 9382712764/1128499107
≈ 8.31432). -/
theorem reference_scenario :
    ∃ v, solveEvaporationLoss ⟨0.6, 12, 40, 5⟩ = some v ∧ |v - 8.314| ≤ 0.01 :=
  ⟨9382712764/1128499107, by decide, by decide⟩

/-- C5: the strict call shape fails with a ValidationError exactly when
some input lies outside its domain (vpd ∈ [0,1], nozzle ∈ [8,64],
pressure ∈ [20,80], wind ∈ [0,15]); every failure is a validation error
naming the offending field, its value and the allowed range; in
particular `evaluate(-0.1, 12, 40, 5)` fails naming vpd and
`evaluate(0.6, 5, 40, 5)` fails naming nozzle. -/
theorem validation_rejects_out_of_domain :
    ∀ (vpd : ℚ) (nozzle : ℤ) (pressure wind : ℚ),
      ((∃ e, EvapSolverValidated.calculateEvaporationLoss vpd nozzle pressure wind =
          .error e) ↔ ¬ InDomain vpd nozzle pressure wind) ∧
      (∀ e, EvapSolverValidated.calculateEvaporationLoss vpd nozzle pressure wind =
          .error e →
        ∃ ve, e = .validation ve ∧
          ((ve.field = .vpd ∧ ve.value = vpd ∧ ve.lo = 0 ∧ ve.hi = 1 ∧
              (vpd < 0 ∨ vpd > 1)) ∨
           (ve.field = .nozzle ∧ ve.value = (nozzle : ℚ) ∧ ve.lo = 8 ∧ ve.hi = 64 ∧
              (nozzle < 8 ∨ nozzle > 64)) ∨
           (ve.field = .pressure ∧ ve.value = pressure ∧ ve.lo = 20 ∧ ve.hi = 80 ∧
              (pressure < 20 ∨ pressure > 80)) ∨
           (ve.field = .wind ∧ ve.value = wind ∧ ve.lo = 0 ∧ ve.hi = 15 ∧
              (wind < 0 ∨ wind > 15)))) ∧
      EvapSolverValidated.calculateEvaporationLoss (-0.1) 12 40 5 =
        .error (.validation ⟨.vpd, -0.1, 0, 1⟩) ∧
      EvapSolverValidated.calculateEvaporationLoss 0.6 5 40 5 =
        .error (.validation ⟨.nozzle, 5, 8, 64⟩) := by
  intro vpd nozzle pressure wind
  refine ⟨⟨?_, ?_⟩, ?_, by rfl, by rfl⟩
  · rintro ⟨e, he⟩
    rcases strict_call_cases vpd nozzle pressure wind with ⟨_, r, hok, _⟩ | ⟨hnin, _⟩
    · rw [hok] at he
      exact absurd he (by simp)
    · exact hnin
  · intro hnin
    rcases strict_call_cases vpd nozzle pressure wind with ⟨hin, _⟩ | ⟨_, ve, _, herr⟩
    · exact absurd hin hnin
    · exact ⟨_, herr⟩
  · intro e he
    rcases strict_call_cases vpd nozzle pressure wind with ⟨_, r, hok, _⟩ | ⟨_, ve, hval, herr⟩
    · rw [hok] at he
      exact absurd he (by simp)
    · rw [herr] at he
      have hee : e = .validation ve := by
        exact (Except.error.injEq _ _ ▸ congrArg id he).symm ▸ rfl
      exact ⟨ve, hee, EvapSolverValidated.validate_error_cases _ ve hval⟩

/-- Witness for C5 at the two concrete out-of-domain calls of the claim:
the failure-iff direction applied at `(-0.1, 12, 40, 5)`. -/
theorem validation_rejects_out_of_domain_witness :
    ∃ e, EvapSolverValidated.calculateEvaporationLoss (-0.1) 12 40 5 = .error e :=
  ((validation_rejects_out_of_domain (-0.1) 12 40 5).1).mpr (by decide)

/-- C6: the default-substituting call shape never fails: it returns the
evaluator's percentage when validation succeeds, and the caller-supplied
default on any validation failure; in particular
`evaluateOrDefault(-0.1, 12, 40, 5, -1.0) = -1.0`. -/
theorem safe_variant_never_fails :
    ∀ (vpd : ℚ) (nozzle : ℤ) (pressure wind dflt : ℚ),
      (InDomain vpd nozzle pressure wind →
        EvapSolverValidated.Calculator.calculateUnchecked ⟨vpd, nozzle, pressure, wind⟩ =
          some (EvapSolverValidated.calculateEvaporationLossSafe
            vpd nozzle pressure wind dflt)) ∧
      (¬ InDomain vpd nozzle pressure wind →
        EvapSolverValidated.calculateEvaporationLossSafe vpd nozzle pressure wind dflt =
          dflt) ∧
      EvapSolverValidated.calculateEvaporationLossSafe (-0.1) 12 40 5 (-1) = -1 := by
  intro vpd nozzle pressure wind dflt
  rcases strict_call_cases vpd nozzle pressure wind with
    ⟨hin, r, hok, hr⟩ | ⟨hnin, ve, hval, herr⟩
  · have hsafe : EvapSolverValidated.calculateEvaporationLossSafe
        vpd nozzle pressure wind dflt = r := by
      simp only [EvapSolverValidated.calculateEvaporationLossSafe, hok]
    exact ⟨fun _ => hsafe ▸ hr, fun hn => absurd hin hn, by rfl⟩
  · have hsafe : EvapSolverValidated.calculateEvaporationLossSafe
        vpd nozzle pressure wind dflt = dflt := by
      simp only [EvapSolverValidated.calculateEvaporationLossSafe, herr]
    exact ⟨fun hin => absurd hin hnin, fun _ => hsafe, by rfl⟩

/-- Witness for C6: an in-domain call where the safe variant returns the
pipeline value, applied at `(0.6, 12, 40, 5)` with default 7. -/
theorem safe_variant_never_fails_witness :
    EvapSolverValidated.Calculator.calculateUnchecked ⟨0.6, 12, 40, 5⟩ =
      some (EvapSolverValidated.calculateEvaporationLossSafe 0.6 12 40 5 7) :=
  (safe_variant_never_fails 0.6 12 40 5 7).1 (by decide)

/-- C7: the diagnostics call shape returns `isValid = true`, the computed
percentage, an empty error message and
`isOutOfRange = (percentage < 0 ∨ percentage > 40)` whenever all inputs
are in domain; on an out-of-domain input it returns `isValid = false`
with a non-empty `errorMessage`, and `isOutOfRange` is `false` on that
branch. -/
theorem diagnostics_shape :
    ∀ (vpd : ℚ) (nozzle : ℤ) (pressure wind : ℚ),
      (InDomain vpd nozzle pressure wind →
        ∃ r, EvapSolverValidated.Calculator.calculateUnchecked
            ⟨vpd, nozzle, pressure, wind⟩ = some r ∧
          EvapSolverValidated.calculateEvaporationLossWithValidation
              vpd nozzle pressure wind =
            ⟨true, "", r, decide (r < 0 ∨ r > 40)⟩) ∧
      (¬ InDomain vpd nozzle pressure wind →
        (EvapSolverValidated.calculateEvaporationLossWithValidation
          vpd nozzle pressure wind).isValid = false ∧
        (EvapSolverValidated.calculateEvaporationLossWithValidation
          vpd nozzle pressure wind).errorMessage ≠ "" ∧
        (EvapSolverValidated.calculateEvaporationLossWithValidation
          vpd nozzle pressure wind).isOutOfRange = false) := by
  intro vpd nozzle pressure wind
  rcases EvapSolverValidated.validate_result ⟨vpd, nozzle, pressure, wind⟩ with
    hok | ⟨ve, he⟩
  · constructor
    · intro _
      obtain ⟨r, hr⟩ :=
        EvapSolverValidated.calculateUnchecked_total ⟨vpd, nozzle, pressure, wind⟩
      refine ⟨r, hr, ?_⟩
      simp only [EvapSolverValidated.calculateEvaporationLossWithValidation,
        EvapSolverValidated.Calculator.calculateWithValidation, hok, hr]
    · intro hnin
      exact absurd ((EvapSolverValidated.validate_ok_iff _).mp hok) hnin
  · have hres : EvapSolverValidated.calculateEvaporationLossWithValidation
        vpd nozzle pressure wind =
        ⟨false, (EvapSolverValidated.EvalError.validation ve).message, 0, false⟩ := by
      simp only [EvapSolverValidated.calculateEvaporationLossWithValidation, he]
    constructor
    · intro hin
      rw [(EvapSolverValidated.validate_ok_iff _).mpr hin] at he
      exact absurd he (by simp)
    · intro _
      rw [hres]
      exact ⟨rfl, EvapSolverValidated.message_ne_empty (.validation ve), rfl⟩

/-- Witness for C7: both branches applied concretely, at the in-domain
input `(0.6, 12, 40, 5)` and the out-of-domain input `(-0.1, 12, 40, 5)`. -/
theorem diagnostics_shape_witness :
    (∃ r, EvapSolverValidated.Calculator.calculateUnchecked ⟨0.6, 12, 40, 5⟩ = some r ∧
      EvapSolverValidated.calculateEvaporationLossWithValidation 0.6 12 40 5 =
        ⟨true, "", r, decide (r < 0 ∨ r > 40)⟩) ∧
    (EvapSolverValidated.calculateEvaporationLossWithValidation
      (-0.1) 12 40 5).isValid = false :=
  ⟨(diagnostics_shape 0.6 12 40 5).1 (by decide),
    ((diagnostics_shape (-0.1) 12 40 5).2 (by decide)).1⟩

/-- C8 counterexample: a table with fewer than two points is NOT rejected
anywhere in the code — the lookup primitive happily clamps on a
one-point table (the only check in the repository is the per-call
empty-table throw inside `interpolate`; no construction-time validation
exists). -/
theorem single_point_table_not_rejected :
    interpolate [((0 : ℚ), (7 : ℚ))] 3 = some 7 ∧
      interpolate [((0 : ℚ), (7 : ℚ))] (-3) = some 7 := by
  decide

/-- C8 amended: there is no construction-time table validation; the only
failure mode of the interpolation machinery is the per-call
empty-table check of the lookup primitive — `interpolate` fails exactly
on the empty table (and `linearBetween` blending is total). -/
theorem interpolate_fails_iff_empty :
    ∀ (t : Table) (x : ℚ), interpolate t x = none ↔ t = [] := by
  intro t x
  cases t with
  | nil => simp [interpolate]
  | cons p rest => simp [interpolate]

/-- C9 counterexample: the evaluator can NOT produce a percentage outside
[0, 40] — the claim's "can produce percentages outside [0, 40]" fails,
because the reverse result table's digitized values span exactly 0–40
and the lookup never overshoots the values of its table. -/
theorem no_out_of_range_output :
    ¬ ∃ (i : Inputs) (v : ℚ), solveEvaporationLoss i = some v ∧ (v < 0 ∨ 40 < v) := by
  rintro ⟨i, v, hv, hout⟩
  obtain ⟨h1, h2⟩ := solveEvaporationLoss_range i v hv
  rcases hout with h | h <;> linarith

/-- C9 amended: the output is a single percentage which the code never
clamps by any explicit branch, yet every value the evaluator actually
produces lies within the conventional 0–40 range. -/
theorem output_always_within_nominal_range :
    ∀ (i : Inputs) (v : ℚ), solveEvaporationLoss i = some v → 0 ≤ v ∧ v ≤ 40 :=
  solveEvaporationLoss_range

/-- Witness for the amended C9 at the reference input. -/
theorem output_always_within_nominal_range_witness :
    0 ≤ (9382712764 : ℚ)/1128499107 ∧ (9382712764 : ℚ)/1128499107 ≤ 40 :=
  output_always_within_nominal_range ⟨0.6, 12, 40, 5⟩ (9382712764/1128499107) (by decide)

/-- C10: no-overshoot bound — for every non-empty strictly increasing
table, the lookup result lies within the interval spanned by the table's
values (between two member values); consequently the final reverse
lookup on the flipped result table always lands in [0, 40]. -/
theorem lookup_no_overshoot :
    (∀ (t : Table) (x v : ℚ), t ≠ [] → StrictIncr t → interpolate t x = some v →
      ∃ a ∈ t, ∃ b ∈ t, a.2 ≤ v ∧ v ≤ b.2) ∧
    (∀ (x v : ℚ), interpolate S6_flip x = some v → 0 ≤ v ∧ v ≤ 40) := by
  constructor
  · intro t x v _ hs hv
    exact interpolate_bound t x v hs hv
  · intro x v hv
    obtain ⟨a, ha, b, hb, h1, h2⟩ := interpolate_bound S6_flip x v S6_flip_sorted hv
    exact ⟨le_trans (S6_flip_values a ha).1 h1, le_trans h2 (S6_flip_values b hb).2⟩

/-- Witness for C10 at the concrete table `S3` and query 0.05. -/
theorem lookup_no_overshoot_witness :
    ∃ a ∈ S3, ∃ b ∈ S3, a.2 ≤ (221 : ℚ)/2000 ∧ (221 : ℚ)/2000 ≤ b.2 :=
  lookup_no_overshoot.1 S3 (1/20) (221/2000) (by decide) (by decide) (by decide)
